import Mathlib

/-!
Shallow embedding of `source/examples/rapids-azureml-hpo/notebook.ipynb`.

The notebook is a linear script driving the Azure ML SDK.  We embed the
locally computed request payloads (datastore URI, command job, sweep job,
compute-cluster description, environment registration) as Lean values
parameterised by the workspace configuration, and the script's sequence of
SDK calls as a trace `runScript`, parameterised by the platform's responses
(the outcome of the compute lookup, the name and studio URL of the returned
sweep job).
-/

namespace RapidsAzureMLHPO

/-- The workspace handle fields of the `MLClient` (cell-5): the script fills
them with placeholder credential strings; we keep them abstract. -/
structure MLClientCfg where
  subscription_id : String
  resource_group_name : String
  workspace_name : String
deriving DecidableEq

/-- `datastore_name = "workspaceartifactstore"` (cell-8). -/
def datastore_name : String := "workspaceartifactstore"

/-- `dataset = "airline_20000000.parquet"` (cell-8). -/
def dataset : String := "airline_20000000.parquet"

/-- The f-string
`f"azureml://subscriptions/{ml_client.subscription_id}/resourcegroups/{ml_client.resource_group_name}/workspaces/{ml_client.workspace_name}/datastores/{datastore_name}/paths/{dataset}"`
from cell-8, as left-to-right string concatenation. -/
def data_uri (c : MLClientCfg) : String :=
  "azureml://subscriptions/" ++ c.subscription_id ++
  "/resourcegroups/" ++ c.resource_group_name ++
  "/workspaces/" ++ c.workspace_name ++
  "/datastores/" ++ datastore_name ++ "/paths/" ++ dataset

/-- `gpu_compute_target = "rapids-cluster"` (cell-12). -/
def gpu_compute_target : String := "rapids-cluster"

/-- The `AmlCompute` entity constructed in the `except` branch of cell-12. -/
structure AmlCompute where
  name : String
  type : String
  size : String
  max_instances : Nat
  idle_time_before_scale_down : Nat
deriving DecidableEq

/-- `AmlCompute(name="rapids-cluster", type="amlcompute", size="STANDARD_NC12S_V3",
max_instances=5, idle_time_before_scale_down=300)` (cell-12). -/
def gpu_target : AmlCompute :=
  { name := "rapids-cluster"
  , type := "amlcompute"
  , size := "STANDARD_NC12S_V3"
  , max_instances := 5
  , idle_time_before_scale_down := 300 }

/-- Outcome of `ml_client.compute.get(gpu_compute_target)` as observed by the
script: the call returns normally, raises `MlException` (the platform's
not-found signal caught in cell-12), or raises some other exception. -/
inductive LookupOutcome where
  | found
  | mlException
  | otherError
deriving DecidableEq

/-- What the script's try/except in cell-12 does with the compute target. -/
inductive ComputeDecision where
  | reusedExisting
  | createdNew
  | errorPropagated
deriving DecidableEq

/-- The try/except of cell-12: reuse on a successful `compute.get`, create a
new cluster when `MlException` is raised; any other exception is uncaught. -/
def getOrCreateCompute : LookupOutcome → ComputeDecision
  | .found => .reusedExisting
  | .mlException => .createdNew
  | .otherError => .errorPropagated

/-- `experiment_name = "test_rapids_aml_cluster"` (cell-19). -/
def experiment_name : String := "test_rapids_aml_cluster"

/-- The `Environment` entity of cell-22 (`build=BuildContext(path=os.getcwd())`). -/
structure Environment where
  build : String
  name : String
  description : String
deriving DecidableEq

/-- `Environment(build=BuildContext(path=os.getcwd()), name="rapids-mlflow",
description="RAPIDS environment with azureml-mlflow")` (cell-22). -/
def env_docker_image (cwd : String) : Environment :=
  { build := cwd
  , name := "rapids-mlflow"
  , description := "RAPIDS environment with azureml-mlflow" }

/-- The versioned reference string `name:version` under which the platform
registers an environment; `environments.create_or_update` assigns the
version (the recorded run of cell-22 shows version `10`). -/
def environment_reference (name : String) (version : Nat) : String :=
  name ++ ":" ++ Nat.repr version

/-- An `Input(type="uri_file", path=...)` value (cell-25). -/
structure Input where
  type : String
  path : String
deriving DecidableEq

/-- A hyperparameter search-space distribution from `azure.ai.ml.sweep`
(cell-30): `Choice(values=...)` over integers, or `Uniform(min_value, max_value)`. -/
inductive SweepDistribution where
  | Choice (values : List Nat)
  | Uniform (min_value max_value : Rat)
deriving DecidableEq

/-- A value in the `inputs` dictionary of a command job: a literal number or
string, or (after `command_job(...)` is re-invoked in cell-30) a sweep
distribution. -/
inductive ParamValue where
  | nat (n : Nat)
  | rat (q : Rat)
  | str (s : String)
  | dist (d : SweepDistribution)
deriving DecidableEq

/-- The `inputs` dictionary of the command job (cell-25), field per key. -/
structure JobInputs where
  data_dir : Input
  n_bins : ParamValue
  compute : ParamValue
  cv_folds : ParamValue
  n_estimators : ParamValue
  max_depth : ParamValue
  max_features : ParamValue
deriving DecidableEq

/-- The `command=` string of cell-25 (braces of the `$\x7b\x7b...\x7d\x7d`
placeholders written as escapes). -/
def train_command : String :=
  "python train_rapids.py --data_dir $\x7b\x7binputs.data_dir\x7d\x7d --n_bins $\x7b\x7binputs.n_bins\x7d\x7d " ++
  "--compute $\x7b\x7binputs.compute\x7d\x7d --cv_folds $\x7b\x7binputs.cv_folds\x7d\x7d --n_estimators $\x7b\x7binputs.n_estimators\x7d\x7d " ++
  "--max_depth $\x7b\x7binputs.max_depth\x7d\x7d  --max_features $\x7b\x7binputs.max_features\x7d\x7d"

/-- A `command(...)` job (cell-25): environment reference, experiment name,
code path, inputs, command line, compute target. -/
structure CommandJob where
  environment : String
  experiment_name : String
  code : String
  inputs : JobInputs
  command : String
  compute : String
deriving DecidableEq

/-- The `command_job` of cell-25. -/
def command_job (c : MLClientCfg) (cwd : String) : CommandJob :=
  { environment := "rapids-mlflow:1"
  , experiment_name := experiment_name
  , code := cwd
  , inputs :=
    { data_dir := { type := "uri_file", path := data_uri c }
    , n_bins := .nat 32
    , compute := .str "single-GPU"
    , cv_folds := .nat 5
    , n_estimators := .nat 100
    , max_depth := .nat 6
    , max_features := .rat 0.3 }
  , command := train_command
  , compute := "rapids-cluster" }

/-- `command_job_for_sweep = command_job(n_estimators=Choice(values=range(50, 500)),
max_depth=Choice(values=range(5, 19)), max_features=Uniform(min_value=0.2, max_value=1.0))`
(cell-30): re-invoking the command job replaces exactly those three inputs.
`range(50, 500)` is the 450 integers from 50, `range(5, 19)` the 14 from 5. -/
def command_job_for_sweep (c : MLClientCfg) (cwd : String) : CommandJob :=
  let base := command_job c cwd
  { base with inputs :=
    { base.inputs with
      n_estimators := .dist (.Choice (List.range' 50 450))
    , max_depth := .dist (.Choice (List.range' 5 14))
    , max_features := .dist (.Uniform 0.2 1.0) } }

/-- The limits set by `sweep_job.set_limits(...)` (cell-30). -/
structure SweepLimits where
  max_total_trials : Nat
  max_concurrent_trials : Nat
  timeout : Nat
  trial_timeout : Nat
deriving DecidableEq

/-- The sweep job object: trial, compute, sampling algorithm, primary metric,
goal, plus the mutable `limits` / `display_name` / `description` set after
construction (cell-30). -/
structure SweepJob where
  trial : CommandJob
  compute : String
  sampling_algorithm : String
  primary_metric : String
  goal : String
  limits : Option SweepLimits
  display_name : Option String
  description : Option String
deriving DecidableEq

/-- `command_job_for_sweep.sweep(compute="rapids-cluster", sampling_algorithm="random",
primary_metric="Accuracy", goal="Maximize")` (cell-30), before the limits and
display fields are assigned. -/
def sweep_job_initial (c : MLClientCfg) (cwd : String) : SweepJob :=
  { trial := command_job_for_sweep c cwd
  , compute := "rapids-cluster"
  , sampling_algorithm := "random"
  , primary_metric := "Accuracy"
  , goal := "Maximize"
  , limits := none
  , display_name := none
  , description := none }

/-- `sweep_job.set_limits(max_total_trials, max_concurrent_trials, timeout,
trial_timeout)` (cell-30). -/
def set_limits (j : SweepJob) (mt mc tmo ttm : Nat) : SweepJob :=
  { j with limits := some { max_total_trials := mt, max_concurrent_trials := mc
                          , timeout := tmo, trial_timeout := ttm } }

/-- The sweep job as finally submitted in cell-32: after
`set_limits(max_total_trials=10, max_concurrent_trials=2, timeout=18000,
trial_timeout=3600)` and the `display_name` / `description` assignments. -/
def sweep_job (c : MLClientCfg) (cwd : String) : SweepJob :=
  let j := set_limits (sweep_job_initial c cwd) 10 2 18000 3600
  { j with display_name := some "RF-rapids-sweep-job"
         , description := some "Run RAPIDS hyperparameter sweep job" }

/-- One observable step of the script: an SDK call or the local sweep
definition, in the order the cells execute. -/
inductive Step where
  | getWorkspaceHandle
  | resolveDatasetUri (uri : String)
  | computeGet (name : String)
  | computeCreate (target : AmlCompute)
  | environmentCreateOrUpdate (env : Environment)
  | submitJob (job : CommandJob)
  | defineSweep (job : SweepJob)
  | submitSweep (job : SweepJob)
  | pollResults (studio_url : String)
  | downloadOutput (jobName : String) (output_name : String)
  | computeDelete (name : String)
deriving DecidableEq

/-- The platform's responses that the script consumes: the outcome of the
compute lookup and the name and studio URL of the returned sweep job. -/
structure Platform where
  lookup : LookupOutcome
  sweepJobName : String
  sweepStudioUrl : String
deriving DecidableEq

/-- The script from the environment setup (cell-22) to the cluster deletion
(cell-39), common to both branches of the try/except. -/
def scriptAfterCompute (c : MLClientCfg) (cwd : String) (p : Platform) : List Step :=
  [ .environmentCreateOrUpdate (env_docker_image cwd)
  , .submitJob (command_job c cwd)
  , .defineSweep (sweep_job c cwd)
  , .submitSweep (sweep_job c cwd)
  , .pollResults p.sweepStudioUrl
  , .downloadOutput p.sweepJobName "model"
  , .computeDelete gpu_compute_target ]

/-- The whole notebook as a trace of steps: workspace handle (cell-5),
datastore URI (cell-8), compute lookup (cell-12) — on `MlException` the
cluster is created, on any other exception the script aborts — then the
rest of the script. -/
def runScript (c : MLClientCfg) (cwd : String) (p : Platform) : List Step :=
  Step.getWorkspaceHandle ::
  Step.resolveDatasetUri (data_uri c) ::
  Step.computeGet gpu_compute_target ::
  match p.lookup with
  | .found => scriptAfterCompute c cwd p
  | .mlException => Step.computeCreate gpu_target :: scriptAfterCompute c cwd p
  | .otherError => []

/-- Does a step download a job output? -/
def Step.isDownload : Step → Bool
  | .downloadOutput _ _ => true
  | _ => false

/-- The compute-target name a step refers to, when it refers to one: the
lookup, the created cluster, the job and sweep compute fields, the deletion. -/
def Step.computeName : Step → Option String
  | .computeGet n => some n
  | .computeCreate t => some t.name
  | .submitJob j => some j.compute
  | .submitSweep j => some j.compute
  | .computeDelete n => some n
  | _ => none

/-- Does every compute-referring step of the trace use the given name? -/
def usesOnlyComputeName (tr : List Step) (target : String) : Bool :=
  tr.all fun s => match s.computeName with
    | some n => n == target
    | none => true

/-! Helper lemmas (shared). -/

/-- String append is cancellative on the left. -/
lemma string_append_left_cancel (a b c : String) (h : a ++ b = a ++ c) : b = c := by
  cases a with | mk da =>
  cases b with | mk db =>
  cases c with | mk dc =>
  have h' : da ++ db = da ++ dc := congrArg String.data h
  exact congrArg String.mk (List.append_cancel_left h')

/-- `Nat.toDigitsCore` with positive fuel strictly lengthens its accumulator. -/
lemma toDigitsCore_length_lt (b : Nat) :
    ∀ (f n : Nat) (l : List Char), l.length < (Nat.toDigitsCore b (f + 1) n l).length := by
  intro f
  induction f with
  | zero =>
    intro n l
    simp only [Nat.toDigitsCore]
    split <;> simp
  | succ f ih =>
    intro n l
    simp only [Nat.toDigitsCore]
    split
    · simp
    · exact Nat.lt_trans (by simp) (ih (n / b) (Nat.digitChar (n % b) :: l))

/-- The decimal representation of a number at least 10 has at least 2 chars. -/
lemma repr_length_ge_two (v : Nat) (h : 10 ≤ v) : 2 ≤ (Nat.repr v).length := by
  have hne : v / 10 ≠ 0 := by
    have h1 : 1 ≤ v / 10 := (Nat.one_le_div_iff (by norm_num)).mpr h
    omega
  obtain ⟨f, rfl⟩ : ∃ f, v = f + 1 := ⟨v - 1, by omega⟩
  unfold Nat.repr Nat.toDigits
  simp only [Nat.toDigitsCore]
  rw [if_neg hne]
  have hlt := toDigitsCore_length_lt 10 f ((f + 1) / 10) [Nat.digitChar ((f + 1) % 10)]
  simpa using Nat.succ_le_of_lt hlt

/-- A natural number prints as the string "1" exactly when it is 1. -/
lemma repr_eq_one_iff (v : Nat) : Nat.repr v = "1" ↔ v = 1 := by
  constructor
  · intro h
    by_cases hv : v < 10
    · interval_cases v <;> revert h <;> decide
    · exfalso
      have h2 := repr_length_ge_two v (by omega)
      rw [h] at h2
      exact absurd h2 (by decide)
  · rintro rfl
    rfl

/-! Theorems for the claims. -/

/-- C1: the only error handling in the script is the cluster lookup of
cell-12: the compute target is reused exactly when `compute.get` succeeds,
a new cluster is created exactly when the lookup raises the platform's
not-found exception (`MlException`), and any other exception is unhandled —
on it the script aborts right after the lookup, performing no further step. -/
theorem claim1_lookup_only_error_handling :
    ∀ (r : LookupOutcome) (c : MLClientCfg) (cwd sn su : String),
      (getOrCreateCompute r = ComputeDecision.reusedExisting ↔ r = LookupOutcome.found) ∧
      (getOrCreateCompute r = ComputeDecision.createdNew ↔ r = LookupOutcome.mlException) ∧
      (getOrCreateCompute r = ComputeDecision.errorPropagated ↔ r = LookupOutcome.otherError) ∧
      runScript c cwd ⟨LookupOutcome.otherError, sn, su⟩ =
        [Step.getWorkspaceHandle, Step.resolveDatasetUri (data_uri c),
         Step.computeGet gpu_compute_target] := by
  intro r c cwd sn su
  refine ⟨?_, ?_, ?_, rfl⟩ <;> cases r <;> decide

/-- C2: in every completed execution (lookup found, or not found and the
cluster is created) the steps occur exactly in the order: workspace handle,
dataset URI, get-or-create compute, environment build, training-job
submission, sweep definition, sweep submission, polling, artifact download,
and finally — last, after the download — cluster deletion. -/
theorem claim2_execution_order :
    ∀ (c : MLClientCfg) (cwd sn su : String),
      runScript c cwd ⟨LookupOutcome.found, sn, su⟩ =
        [Step.getWorkspaceHandle,
         Step.resolveDatasetUri (data_uri c),
         Step.computeGet gpu_compute_target,
         Step.environmentCreateOrUpdate (env_docker_image cwd),
         Step.submitJob (command_job c cwd),
         Step.defineSweep (sweep_job c cwd),
         Step.submitSweep (sweep_job c cwd),
         Step.pollResults su,
         Step.downloadOutput sn "model",
         Step.computeDelete gpu_compute_target] ∧
      runScript c cwd ⟨LookupOutcome.mlException, sn, su⟩ =
        [Step.getWorkspaceHandle,
         Step.resolveDatasetUri (data_uri c),
         Step.computeGet gpu_compute_target,
         Step.computeCreate gpu_target,
         Step.environmentCreateOrUpdate (env_docker_image cwd),
         Step.submitJob (command_job c cwd),
         Step.defineSweep (sweep_job c cwd),
         Step.submitSweep (sweep_job c cwd),
         Step.pollResults su,
         Step.downloadOutput sn "model",
         Step.computeDelete gpu_compute_target] ∧
      (runScript c cwd ⟨LookupOutcome.found, sn, su⟩).getLast? =
        some (Step.computeDelete gpu_compute_target) ∧
      (runScript c cwd ⟨LookupOutcome.mlException, sn, su⟩).getLast? =
        some (Step.computeDelete gpu_compute_target) ∧
      (runScript c cwd ⟨LookupOutcome.found, sn, su⟩).dropLast.getLast? =
        some (Step.downloadOutput sn "model") ∧
      (runScript c cwd ⟨LookupOutcome.mlException, sn, su⟩).dropLast.getLast? =
        some (Step.downloadOutput sn "model") := by
  intro c cwd sn su
  exact ⟨rfl, rfl, rfl, rfl, rfl, rfl⟩

/-- C3: the datastore URI handed to the training job as its `data_dir` input
is exactly `azureml://subscriptions/` + subscription id + `/resourcegroups/`
+ resource group + `/workspaces/` + workspace name +
`/datastores/workspaceartifactstore/paths/airline_20000000.parquet`,
built from the workspace handle's fields and the two local constants. -/
theorem claim3_data_uri_shape :
    ∀ (c : MLClientCfg) (cwd : String),
      data_uri c =
        "azureml://subscriptions/" ++ c.subscription_id ++
        "/resourcegroups/" ++ c.resource_group_name ++
        "/workspaces/" ++ c.workspace_name ++
        "/datastores/workspaceartifactstore/paths/airline_20000000.parquet" ∧
      datastore_name = "workspaceartifactstore" ∧
      dataset = "airline_20000000.parquet" ∧
      (command_job c cwd).inputs.data_dir =
        { type := "uri_file", path := data_uri c } := by
  intro c cwd
  refine ⟨?_, rfl, rfl, rfl⟩
  simp only [data_uri, datastore_name, dataset, String.append_assoc]
  rfl

/-- C4: the sweep derived from the training job samples randomly, maximises
the primary metric "Accuracy", and searches `n_estimators` by Choice over
the integers 50..499, `max_depth` by Choice over 5..18, and `max_features`
Uniform on [0.2, 1.0]. -/
theorem claim4_sweep_search_space :
    ∀ (c : MLClientCfg) (cwd : String) (m : Nat),
      (sweep_job c cwd).sampling_algorithm = "random" ∧
      (sweep_job c cwd).primary_metric = "Accuracy" ∧
      (sweep_job c cwd).goal = "Maximize" ∧
      (sweep_job c cwd).trial.inputs.n_estimators =
        ParamValue.dist (SweepDistribution.Choice (List.range' 50 450)) ∧
      (m ∈ List.range' 50 450 ↔ 50 ≤ m ∧ m ≤ 499) ∧
      (sweep_job c cwd).trial.inputs.max_depth =
        ParamValue.dist (SweepDistribution.Choice (List.range' 5 14)) ∧
      (m ∈ List.range' 5 14 ↔ 5 ≤ m ∧ m ≤ 18) ∧
      (sweep_job c cwd).trial.inputs.max_features =
        ParamValue.dist (SweepDistribution.Uniform 0.2 1.0) ∧
      (0.2 : Rat) = 2 / 10 ∧ (1.0 : Rat) = 1 := by
  intro c cwd m
  refine ⟨rfl, rfl, rfl, rfl, ?_, rfl, ?_, rfl, by norm_num, by norm_num⟩ <;>
    rw [List.mem_range'_1] <;> omega

/-- C5: the submitted sweep job carries the limits max_total_trials = 10,
max_concurrent_trials = 2, timeout = 18000 and trial_timeout = 3600; trial
concurrency is only a field of the submitted payload — the script itself is
a single sequential trace in which the sweep is submitted once. -/
theorem claim5_sweep_limits :
    ∀ (c : MLClientCfg) (cwd sn su : String),
      (sweep_job c cwd).limits =
        some { max_total_trials := 10, max_concurrent_trials := 2
             , timeout := 18000, trial_timeout := 3600 } ∧
      Step.submitSweep (sweep_job c cwd) ∈ runScript c cwd ⟨LookupOutcome.found, sn, su⟩ ∧
      Step.submitSweep (sweep_job c cwd) ∈
        runScript c cwd ⟨LookupOutcome.mlException, sn, su⟩ := by
  intro c cwd sn su
  refine ⟨rfl, ?_, ?_⟩ <;> simp [runScript, scriptAfterCompute]

/-- C6: the locally computed request payloads are deterministic in the
configuration: equal workspace fields and code path give the same datastore
URI, the same command job and the same sweep job. -/
theorem claim6_payload_deterministic :
    ∀ (c₁ c₂ : MLClientCfg) (cwd₁ cwd₂ : String),
      c₁.subscription_id = c₂.subscription_id →
      c₁.resource_group_name = c₂.resource_group_name →
      c₁.workspace_name = c₂.workspace_name →
      cwd₁ = cwd₂ →
      data_uri c₁ = data_uri c₂ ∧
      command_job c₁ cwd₁ = command_job c₂ cwd₂ ∧
      sweep_job c₁ cwd₁ = sweep_job c₂ cwd₂ := by
  intro c₁ c₂ cwd₁ cwd₂ h₁ h₂ h₃ h₄
  cases c₁
  cases c₂
  simp only at h₁ h₂ h₃
  subst h₁ h₂ h₃ h₄
  exact ⟨rfl, rfl, rfl⟩

/-- C6 witness: the determinism theorem applied at a concrete configuration. -/
theorem claim6_payload_deterministic_witness :
    data_uri ⟨"sub", "rg", "ws"⟩ = data_uri ⟨"sub", "rg", "ws"⟩ ∧
    command_job ⟨"sub", "rg", "ws"⟩ "/code" = command_job ⟨"sub", "rg", "ws"⟩ "/code" ∧
    sweep_job ⟨"sub", "rg", "ws"⟩ "/code" = sweep_job ⟨"sub", "rg", "ws"⟩ "/code" :=
  claim6_payload_deterministic ⟨"sub", "rg", "ws"⟩ ⟨"sub", "rg", "ws"⟩ "/code" "/code"
    rfl rfl rfl rfl

/-- C7: the script performs exactly one artifact download, it targets the
returned sweep job by its name with the output named "model", and it occurs
after the sweep submission (in either lookup branch). -/
theorem claim7_download_best_model :
    ∀ (c : MLClientCfg) (cwd sn su : String),
      (runScript c cwd ⟨LookupOutcome.found, sn, su⟩).filter Step.isDownload =
        [Step.downloadOutput sn "model"] ∧
      (runScript c cwd ⟨LookupOutcome.mlException, sn, su⟩).filter Step.isDownload =
        [Step.downloadOutput sn "model"] ∧
      (∃ pre mid, runScript c cwd ⟨LookupOutcome.found, sn, su⟩ =
        pre ++ Step.submitSweep (sweep_job c cwd) :: mid ++
          Step.downloadOutput sn "model" :: [Step.computeDelete gpu_compute_target]) ∧
      (∃ pre mid, runScript c cwd ⟨LookupOutcome.mlException, sn, su⟩ =
        pre ++ Step.submitSweep (sweep_job c cwd) :: mid ++
          Step.downloadOutput sn "model" :: [Step.computeDelete gpu_compute_target]) := by
  intro c cwd sn su
  refine ⟨rfl, rfl,
    ⟨[Step.getWorkspaceHandle,
      Step.resolveDatasetUri (data_uri c),
      Step.computeGet gpu_compute_target,
      Step.environmentCreateOrUpdate (env_docker_image cwd),
      Step.submitJob (command_job c cwd),
      Step.defineSweep (sweep_job c cwd)], [Step.pollResults su], rfl⟩,
    ⟨[Step.getWorkspaceHandle,
      Step.resolveDatasetUri (data_uri c),
      Step.computeGet gpu_compute_target,
      Step.computeCreate gpu_target,
      Step.environmentCreateOrUpdate (env_docker_image cwd),
      Step.submitJob (command_job c cwd),
      Step.defineSweep (sweep_job c cwd)], [Step.pollResults su], rfl⟩⟩

/-- C8: one compute-target name, "rapids-cluster", is used by every
compute-referring operation — the lookup, the cluster description created on
the not-found branch, the training job's compute, the sweep job's compute
and the final deletion — in both lookup branches of the script. -/
theorem claim8_single_compute_name :
    ∀ (c : MLClientCfg) (cwd sn su : String) (lk : LookupOutcome),
      gpu_compute_target = "rapids-cluster" ∧
      gpu_target.name = gpu_compute_target ∧
      (command_job c cwd).compute = gpu_compute_target ∧
      (sweep_job c cwd).compute = gpu_compute_target ∧
      usesOnlyComputeName (runScript c cwd ⟨lk, sn, su⟩) gpu_compute_target = true := by
  intro c cwd sn su lk
  refine ⟨rfl, rfl, rfl, rfl, ?_⟩
  cases lk <;> rfl

/-- C9: the training job pins its environment to the literal versioned
reference "rapids-mlflow:1", whatever version the preceding registration of
"rapids-mlflow" produces; the registered environment at version v is the one
the job references exactly when v = 1. -/
theorem claim9_environment_version_pinned :
    ∀ (c : MLClientCfg) (cwd : String) (v : Nat),
      (command_job c cwd).environment = "rapids-mlflow:1" ∧
      (env_docker_image cwd).name = "rapids-mlflow" ∧
      (environment_reference (env_docker_image cwd).name v = (command_job c cwd).environment
        ↔ v = 1) := by
  intro c cwd v
  refine ⟨rfl, rfl, ?_, ?_⟩
  · intro h
    exact (repr_eq_one_iff v).mp
      (string_append_left_cancel ("rapids-mlflow" ++ ":") (Nat.repr v) "1" h)
  · rintro rfl
    rfl

/-- C10: deriving the sweep trial from the base training job replaces only
the three swept inputs; the data input, the fixed inputs n_bins = 32,
compute mode "single-GPU" and cv_folds = 5, the command line, the experiment
name, the code path, the environment reference and the compute target are
unchanged, and the sweep job's trial is exactly that derived job. -/
theorem claim10_sweep_frame :
    ∀ (c : MLClientCfg) (cwd : String),
      (sweep_job c cwd).trial = command_job_for_sweep c cwd ∧
      (command_job_for_sweep c cwd).inputs.n_estimators =
        ParamValue.dist (SweepDistribution.Choice (List.range' 50 450)) ∧
      (command_job_for_sweep c cwd).inputs.max_depth =
        ParamValue.dist (SweepDistribution.Choice (List.range' 5 14)) ∧
      (command_job_for_sweep c cwd).inputs.max_features =
        ParamValue.dist (SweepDistribution.Uniform 0.2 1.0) ∧
      (command_job_for_sweep c cwd).inputs.data_dir = (command_job c cwd).inputs.data_dir ∧
      (command_job_for_sweep c cwd).inputs.n_bins = (command_job c cwd).inputs.n_bins ∧
      (command_job c cwd).inputs.n_bins = ParamValue.nat 32 ∧
      (command_job_for_sweep c cwd).inputs.compute = (command_job c cwd).inputs.compute ∧
      (command_job c cwd).inputs.compute = ParamValue.str "single-GPU" ∧
      (command_job_for_sweep c cwd).inputs.cv_folds = (command_job c cwd).inputs.cv_folds ∧
      (command_job c cwd).inputs.cv_folds = ParamValue.nat 5 ∧
      (command_job_for_sweep c cwd).command = (command_job c cwd).command ∧
      (command_job_for_sweep c cwd).experiment_name = (command_job c cwd).experiment_name ∧
      (command_job_for_sweep c cwd).code = (command_job c cwd).code ∧
      (command_job_for_sweep c cwd).environment = (command_job c cwd).environment ∧
      (command_job_for_sweep c cwd).compute = (command_job c cwd).compute := by
  intro c cwd
  exact ⟨rfl, rfl, rfl, rfl, rfl, rfl, rfl, rfl, rfl, rfl, rfl, rfl, rfl, rfl, rfl, rfl⟩

end RapidsAzureMLHPO
